import Mathlib

/-!
Shallow embedding of the crabgotchi inference-and-simulation engine
(src/src/terminalWatcher.ts).  The engine consists of a log tail reader
with per-file byte offsets, an ordered pattern classifier with per-rule
cooldowns and escalation counters, the CrabStateManager simulation
(bounded attributes, emotion overlay, randomized hygiene events), and a
wellbeing aggregator (trend and sparkline over historical snapshots).

Numbers are modelled as mathematical integers (all JS arithmetic here is
integer-valued except the sparkline/trend averages, which are modelled
as exact rationals).  Randomized inputs (the random food amount, the
random pet boost) are passed as explicit parameters, with their source
range recorded in the hypotheses of the theorems that need it.
-/

namespace Crabgotchi

/-! ## Constants (terminalWatcher.ts, CrabStateManager section) -/

def STAT_DECAY_INTERVAL : Int := 60000
def EMOTION_DURATION : Int := 10000
def HUNGER_DECAY_RATE : Int := 2
def HAPPINESS_DECAY_RATE : Int := 1
def ENERGY_RECOVERY_RATE : Int := 2
def ACTIVITY_ENERGY_DRAIN : Int := 1
def POOP_HYGIENE_PENALTY : Int := 15
def LOW_HYGIENE_THRESHOLD : Int := 50
def INACTIVITY_THRESHOLD : Int := 300000

/-! ## Data model -/

/-- Emotion tags (crabArt.ts `Emotion` union type). -/
inductive Emotion where
  | neutral | happy | excited | curious | thinking | sad
  | tired | hungry | angry | surprised | lovestruck | claudeFan
deriving DecidableEq, Repr

/-- CrabStats: the four bounded attributes plus counters and timestamps. -/
structure CrabStats where
  hunger : Int
  happiness : Int
  energy : Int
  hygiene : Int
  poopCount : Int
  lastFed : Int
  lastInteraction : Int
deriving DecidableEq, Repr

/-- CrabState: emotion overlay over the stats.  The transient
`customBubble`/`easterEggType` fields are not modelled (they carry no
numeric state and are stripped before persistence). -/
structure CrabState where
  emotion : Emotion
  stats : CrabStats
  emotionExpiry : Int
deriving DecidableEq, Repr

/-- Happiness cap from hygiene and energy (`getMaxHappiness`,
terminalWatcher.ts lines 542-559). -/
def getMaxHappiness (hygiene : Int) (energy : Int) : Int :=
  let max0 : Int :=
    if hygiene ≥ 80 then 100
    else if hygiene ≥ 60 then 80
    else if hygiene ≥ 40 then 60
    else if hygiene ≥ 20 then 50
    else 30
  if energy = 0 then min max0 80
  else if energy < 20 then min max0 90
  else max0

/-- Base emotion from attribute thresholds (`getBaseEmotion`). -/
def getBaseEmotion (s : CrabState) : Emotion :=
  if s.stats.hunger < 20 then .hungry
  else if s.stats.energy < 20 then .tired
  else if s.stats.happiness < 20 then .sad
  else .neutral

/-- Re-clamp happiness to its dynamic ceiling (`capHappiness`). -/
def capHappiness (s : CrabState) : CrabState :=
  { s with stats :=
    { s.stats with
        happiness := min s.stats.happiness (getMaxHappiness s.stats.hygiene s.stats.energy) } }

/-- Unconditional emotion overwrite (`setEmotion`).  The live code also
optionally resets the idle clock (`resetActivity`); the idle clock lives
outside `CrabState` and is irrelevant to the emotion/expiry fields
modelled here. -/
def setEmotion (s : CrabState) (emotion : Emotion) (duration : Int) (now : Int) : CrabState :=
  { s with emotion := emotion, emotionExpiry := now + duration }

/-- Periodic overlay-expiry check (`checkEmotionExpiry`, lines 828-834):
a nonzero expiry strictly in the past reverts to the base emotion. -/
def checkEmotionExpiry (s : CrabState) (now : Int) : CrabState :=
  if s.emotionExpiry > 0 ∧ now > s.emotionExpiry then
    { s with emotion := getBaseEmotion s, emotionExpiry := 0 }
  else s

/-- Periodic decay tick (`decayStats`).  `lastActivity` and `lastDecay`
are the manager's timer fields, passed explicitly. -/
def decayStats (s : CrabState) (lastActivity lastDecay now : Int) : CrabState :=
  let timeSinceActivity := now - lastActivity
  let timeSinceLastDecay := now - lastDecay
  let isSleeping := timeSinceActivity ≥ INACTIVITY_THRESHOLD
  let hunger1 := max 0 (s.stats.hunger - HUNGER_DECAY_RATE)
  let hygieneBonus : Int := if s.stats.hygiene < LOW_HYGIENE_THRESHOLD then 1 else 0
  let happiness1 := max 0 (s.stats.happiness - HAPPINESS_DECAY_RATE - hygieneBonus)
  let missedIntervals := timeSinceLastDecay.fdiv STAT_DECAY_INTERVAL
  let energy1 :=
    if isSleeping ∨ missedIntervals > 1 then
      min 100 (s.stats.energy + ENERGY_RECOVERY_RATE * max 1 missedIntervals)
    else s.stats.energy
  let s1 := capHappiness
    { s with stats :=
      { s.stats with hunger := hunger1, happiness := happiness1, energy := energy1,
                     lastInteraction := now } }
  if s1.stats.hunger < 20 then setEmotion s1 .hungry EMOTION_DURATION now
  else if s1.stats.energy < 20 then setEmotion s1 .tired EMOTION_DURATION now
  else if s1.stats.happiness < 20 then setEmotion s1 .sad EMOTION_DURATION now
  else s1

/-- `onSuccess`: +5 happiness, cap, happy overlay. -/
def onSuccess (s : CrabState) (now : Int) : CrabState :=
  let s1 := capHappiness
    { s with stats := { s.stats with happiness := min 100 (s.stats.happiness + 5) } }
  setEmotion s1 .happy EMOTION_DURATION now

/-- `onMultipleSuccesses`: +10 happiness, cap, excited overlay (8 s). -/
def onMultipleSuccesses (s : CrabState) (now : Int) : CrabState :=
  let s1 := capHappiness
    { s with stats := { s.stats with happiness := min 100 (s.stats.happiness + 10) } }
  setEmotion s1 .excited 8000 now

/-- `onActivity`: tool-activity energy drain. -/
def onActivity (s : CrabState) : CrabState :=
  capHappiness
    { s with stats := { s.stats with energy := max 0 (s.stats.energy - ACTIVITY_ENERGY_DRAIN) } }

/-- `onTokenUsage`: token-proportional energy drain. -/
def onTokenUsage (s : CrabState) (drain : Int) : CrabState :=
  capHappiness
    { s with stats := { s.stats with energy := max 0 (s.stats.energy - drain) } }

/-- `onError`: -10 happiness, sad overlay. -/
def onError (s : CrabState) (now : Int) : CrabState :=
  let s1 := { s with stats := { s.stats with happiness := max 0 (s.stats.happiness - 10) } }
  setEmotion s1 .sad EMOTION_DURATION now

/-- `onRepeatedErrors`: -20 happiness, angry overlay (8 s). -/
def onRepeatedErrors (s : CrabState) (now : Int) : CrabState :=
  let s1 := { s with stats := { s.stats with happiness := max 0 (s.stats.happiness - 20) } }
  setEmotion s1 .angry 8000 now

/-- Result of the `feed()` command. -/
inductive FeedResult where
  | normal | overfed | stuffed
deriving DecidableEq, Repr

/-- `feed()` (lines 970-995).  `foodAmount` stands for
`randomRange(5, 15)`. -/
def feed (s : CrabState) (foodAmount : Int) (now : Int) : FeedResult × CrabState :=
  if s.stats.hunger ≥ 91 then (.stuffed, s)
  else
    let s1 := { s with stats :=
      { s.stats with hunger := min 100 (s.stats.hunger + foodAmount), lastFed := now } }
    if s1.stats.hunger > 70 then
      let s2 := { s1 with stats :=
        { s1.stats with poopCount := s1.stats.poopCount + 1,
                        hygiene := max 0 (s1.stats.hygiene - POOP_HYGIENE_PENALTY) } }
      (.overfed, setEmotion (capHappiness s2) .happy EMOTION_DURATION now)
    else
      (.normal, setEmotion s1 .happy EMOTION_DURATION now)

/-- `pet()`: `boost` stands for `randomRange(5, 15)`. -/
def pet (s : CrabState) (boost : Int) (now : Int) : CrabState :=
  let s1 := capHappiness
    { s with stats := { s.stats with happiness := min 100 (s.stats.happiness + boost) } }
  setEmotion s1 .excited EMOTION_DURATION now

/-- `clean()` (lines 1004-1011).  Note the source comment at the
happiness bump: "No need to cap - hygiene is now 100" — `capHappiness`
is deliberately not called. -/
def clean (s : CrabState) (now : Int) : CrabState :=
  let s1 := { s with stats :=
    { s.stats with poopCount := 0, hygiene := 100,
                   happiness := min 100 (s.stats.happiness + 5) } }
  setEmotion s1 .happy EMOTION_DURATION now

/-- `scrub()` (lines 1014-1025): +10 hygiene; on reaching 100 also
resets the poop counter and bumps happiness (again without re-capping). -/
def scrub (s : CrabState) (now : Int) : Bool × CrabState :=
  let s1 := { s with stats :=
    { s.stats with hygiene := min 100 (s.stats.hygiene + 10) } }
  let s2 :=
    if s1.stats.hygiene ≥ 100 then
      setEmotion
        { s1 with stats :=
          { s1.stats with poopCount := 0,
                          happiness := min 100 (s1.stats.happiness + 5) } }
        .happy EMOTION_DURATION now
    else s1
  (decide (s2.stats.hygiene ≥ 100), s2)

/-- `addPoop()`: hygiene event (randomized timer or stress poop). -/
def addPoop (s : CrabState) : CrabState :=
  capHappiness
    { s with stats :=
      { s.stats with poopCount := s.stats.poopCount + 1,
                     hygiene := max 0 (s.stats.hygiene - POOP_HYGIENE_PENALTY) } }

/-- `onKonamiCode()`: energy boost to at least 80. -/
def onKonamiCode (s : CrabState) (now : Int) : CrabState :=
  let s1 := { s with stats := { s.stats with energy := max s.stats.energy 80 } }
  setEmotion s1 .excited 3000 now

/-! ## Persistence (loadState) -/

/-- Persisted stats record.  `hygiene` and `poopCount` were added after
the first release, so older records may lack them (the `??` defaults in
the source); they are modelled as optional fields. -/
structure SavedStats where
  hunger : Int
  happiness : Int
  energy : Int
  hygiene : Option Int
  poopCount : Option Int
  lastFed : Int
  lastInteraction : Int
deriving DecidableEq, Repr

/-- Persisted state record (`crabState` key).  The persisted emotion and
expiry are present but ignored by `loadState`. -/
structure SavedState where
  emotion : Emotion
  stats : SavedStats
  emotionExpiry : Int
deriving DecidableEq, Repr

/-- `loadState` (lines 586-623): restore from a persisted record,
applying offline hunger decay and offline energy recovery;
`Math.floor` of a real division is floor division (`Int.fdiv`). -/
def loadState (saved : Option SavedState) (now : Int) : CrabState :=
  match saved with
  | some saved =>
    let timePassed := now - saved.stats.lastInteraction
    let minutesPassed := timePassed.fdiv 60000
    { emotion := .neutral
      , stats :=
        { hunger := max 0 (saved.stats.hunger - minutesPassed * HUNGER_DECAY_RATE)
          , happiness := saved.stats.happiness
          , energy := min 100 (saved.stats.energy + minutesPassed.fdiv 5)
          , hygiene := saved.stats.hygiene.getD 100
          , poopCount := saved.stats.poopCount.getD 0
          , lastFed := saved.stats.lastFed
          , lastInteraction := now }
      , emotionExpiry := 0 }
  | none =>
    { emotion := .neutral
      , stats :=
        { hunger := 80, happiness := 70, energy := 100, hygiene := 100
          , poopCount := 0, lastFed := now, lastInteraction := now }
      , emotionExpiry := 0 }

/-! ## Invariants stated by the spec -/

/-- All four attributes are integers in [0,100]. -/
def inRange (s : CrabState) : Prop :=
  0 ≤ s.stats.hunger ∧ s.stats.hunger ≤ 100 ∧
  0 ≤ s.stats.happiness ∧ s.stats.happiness ≤ 100 ∧
  0 ≤ s.stats.energy ∧ s.stats.energy ≤ 100 ∧
  0 ≤ s.stats.hygiene ∧ s.stats.hygiene ≤ 100

instance (s : CrabState) : Decidable (inRange s) := by
  unfold inRange; infer_instance

/-- Happiness is at most its dynamic hygiene/energy ceiling. -/
def happinessCapped (s : CrabState) : Prop :=
  s.stats.happiness ≤ getMaxHappiness s.stats.hygiene s.stats.energy

instance (s : CrabState) : Decidable (happinessCapped s) := by
  unfold happinessCapped; infer_instance

/-! ## TerminalWatcher: pattern classifier (processLogContent, lines 482-491) -/

/-- One classification rule of the `patterns` table.  `source` is the
regex source text, used as the cooldown key (`pattern.source`); `test`
abstracts `pattern.test` over the chunk text. -/
structure Rule where
  source : String
  test : String → Bool
  cooldown : Int

/-- The `lastTriggers` map: rule key to last-fired timestamp. -/
abbrev TriggerMap := List (String × Int)

/-- Lookup in `lastTriggers` with the source's `|| 0` default. -/
def getTrigger (m : TriggerMap) (key : String) : Int :=
  match m with
  | [] => 0
  | (k, v) :: rest => if k = key then v else getTrigger rest key

/-- `lastTriggers.set(patternKey, now)`: overwrite or append. -/
def setTrigger (m : TriggerMap) (key : String) (now : Int) : TriggerMap :=
  match m with
  | [] => [(key, now)]
  | (k, v) :: rest => if k = key then (key, now) :: rest else (k, v) :: setTrigger rest key now

/-- Whether a rule would fire: its cooldown has elapsed since its last
trigger AND its predicate matches the chunk. -/
def ruleFires (r : Rule) (m : TriggerMap) (content : String) (now : Int) : Bool :=
  decide (now - getTrigger m r.source ≥ r.cooldown) && r.test content

/-- The rule-table loop of `processLogContent`: scan rules in table
order; the first rule whose cooldown has elapsed and whose predicate
matches fires (its timestamp is recorded and the loop breaks).  Returns
the index of the fired rule, if any, and the updated trigger map.  The
map is shared across all log sources: `processLogContent` is called with
the same `lastTriggers` whichever file the chunk came from. -/
def classify (rules : List Rule) (m : TriggerMap) (content : String) (now : Int) :
    Option Nat × TriggerMap :=
  match rules with
  | [] => (none, m)
  | r :: rest =>
    if ruleFires r m content now then
      (some 0, setTrigger m r.source now)
    else
      let (res, m1) := classify rest m content now
      (res.map (· + 1), m1)

/-! ## TerminalWatcher: escalation counters (lines 73-87 and 95-113) -/

/-- The watcher's escalation state: `successCount` and `errorCount`. -/
structure EscalationCounters where
  successCount : Int
  errorCount : Int
deriving DecidableEq, Repr

/-- The state-manager call made by an escalating handler. -/
inductive ClassifierEvent where
  | success            -- m.onSuccess()
  | multipleSuccesses  -- m.onMultipleSuccesses()
  | error              -- m.onError()
  | repeatedErrors     -- m.onRepeatedErrors()
  | repeatedErrorsPoop -- m.onRepeatedErrors() plus m.addPoop()
deriving DecidableEq, Repr

/-- Handler of the success rule (lines 76-85): increment
`successCount`; at 3 escalate and reset it; always reset `errorCount`. -/
def successHandler (c : EscalationCounters) : ClassifierEvent × EscalationCounters :=
  let sc := c.successCount + 1
  if sc ≥ 3 then (.multipleSuccesses, { successCount := 0, errorCount := 0 })
  else (.success, { successCount := sc, errorCount := 0 })

/-- Handler of the error rule (lines 97-111): increment `errorCount`;
at 5 escalate with a stress poop and reset it; at 3 or 4 escalate
without resetting; always reset `successCount`. -/
def errorHandler (c : EscalationCounters) : ClassifierEvent × EscalationCounters :=
  let ec := c.errorCount + 1
  if ec ≥ 5 then (.repeatedErrorsPoop, { successCount := 0, errorCount := 0 })
  else if ec ≥ 3 then (.repeatedErrors, { successCount := 0, errorCount := ec })
  else (.error, { successCount := 0, errorCount := ec })

/-! ## TerminalWatcher: log tail reader (lines 380-398 and 410-454) -/

/-- Per-file recorded byte offsets (the `fileSizes` map). -/
abbrev SizeMap := List (String × Nat)

/-- `fileSizes.get(filePath)`. -/
def lookupSize (m : SizeMap) (path : String) : Option Nat :=
  match m with
  | [] => none
  | (k, v) :: rest => if k = path then some v else lookupSize rest path

/-- `fileSizes.set(filePath, size)`. -/
def storeSize (m : SizeMap) (path : String) (size : Nat) : SizeMap :=
  match m with
  | [] => [(path, size)]
  | (k, v) :: rest =>
    if k = path then (path, size) :: rest else (k, v) :: storeSize rest path size

/-- A produced chunk: source path and the byte range [start, stop)
that was read. -/
structure Chunk where
  path : String
  start : Nat
  stop : Nat
deriving DecidableEq, Repr

/-- `checkFileForChanges` (lines 434-454): compare the file's current
size against the recorded offset (`|| 0` when absent).  Strictly larger:
read exactly the delta range and advance the offset.  Otherwise
(equal or smaller, i.e. truncation): do nothing — the recorded offset is
left as it was and no chunk is produced. -/
def checkFileForChanges (m : SizeMap) (path : String) (size : Nat) :
    Option Chunk × SizeMap :=
  let lastSize := (lookupSize m path).getD 0
  if size > lastSize then
    (some ⟨path, lastSize, size⟩, storeSize m path size)
  else
    (none, m)

/-- A snapshot of the watched directory tree at one poll: files carry
their full path and current byte size. -/
inductive FsEntry where
  | file (path : String) (size : Nat)
  | dir (entries : List FsEntry)

/-- The `name.endsWith('.jsonl')` filter, modelled over the path's
character list (suffix = reversed prefix) so that it evaluates inside
the kernel. -/
def endsWithJsonl (p : String) : Bool :=
  List.isPrefixOf (List.reverse ".jsonl".data) (List.reverse p.data)

mutual
/-- `initializeFileSizes` (lines 380-398): record the current size of
every `.jsonl` file found by the recursive scan at construction. -/
def initFileSizes : FsEntry → SizeMap → SizeMap
  | .file p s, m => if endsWithJsonl p then storeSize m p s else m
  | .dir es, m => initFileSizesList es m

def initFileSizesList : List FsEntry → SizeMap → SizeMap
  | [], m => m
  | e :: es, m => initFileSizesList es (initFileSizes e m)
end

mutual
/-- `scanDirectory` (lines 410-432): recurse into subdirectories and run
`checkFileForChanges` on every `.jsonl` file, collecting the produced
chunks in traversal order. -/
def scanDir : FsEntry → SizeMap → List Chunk × SizeMap
  | .file p s, m =>
    if endsWithJsonl p then
      match checkFileForChanges m p s with
      | (some c, m1) => ([c], m1)
      | (none, m1) => ([], m1)
    else ([], m)
  | .dir es, m => scanDirList es m

def scanDirList : List FsEntry → SizeMap → List Chunk × SizeMap
  | [], m => ([], m)
  | e :: es, m =>
    let (cs, m1) := scanDir e m
    let (cs1, m2) := scanDirList es m1
    (cs ++ cs1, m2)
end

mutual
/-- The `.jsonl` files (path and size) of a tree, in traversal order. -/
def jsonlFiles : FsEntry → List (String × Nat)
  | .file p s => if endsWithJsonl p then [(p, s)] else []
  | .dir es => jsonlFilesList es

def jsonlFilesList : List FsEntry → List (String × Nat)
  | [] => []
  | e :: es => jsonlFiles e ++ jsonlFilesList es
end

/-! ## Wellbeing aggregation (getWellbeingTrend, getSparkline) -/

/-- One wellbeing history entry ({timestamp, score}). -/
structure WellbeingSnapshot where
  timestamp : Int
  score : Int
deriving DecidableEq, Repr

/-- Result of `getWellbeingTrend`. -/
inductive Trend where
  | up | down | stable
deriving DecidableEq, Repr

/-- Mean of a list of integer scores, as an exact rational. -/
def meanScore (l : List Int) : ℚ :=
  ((l.map fun x : Int => (x : ℚ)).sum) / (l.length : ℚ)

/-- `getWellbeingTrend` (lines 675-696): compare the mean score of the
last 6 hours against the 6-to-24-hours-ago window, with a deadband of
5 points; degenerate histories and empty windows give `stable`. -/
def getWellbeingTrend (history : List WellbeingSnapshot) (now : Int) : Trend :=
  if history.length < 2 then .stable
  else
    let sixHoursAgo := now - 6 * 60 * 60 * 1000
    let dayAgo := now - 24 * 60 * 60 * 1000
    let recent := history.filter (fun h => decide (h.timestamp > sixHoursAgo))
    let older := history.filter
      (fun h => decide (h.timestamp ≤ sixHoursAgo) && decide (h.timestamp > dayAgo))
    if recent.length = 0 ∨ older.length = 0 then .stable
    else
      let diff := meanScore (recent.map (·.score)) - meanScore (older.map (·.score))
      if diff > 5 then .up
      else if diff < -5 then .down
      else .stable

/-- The eight sparkline intensity glyphs (the `blocks` array). -/
def blocks : List Char := ['▁', '▂', '▃', '▄', '▅', '▆', '▇', '█']

/-- Look up a glyph by index (`blocks[i]`; every index that actually
occurs is in range). -/
def glyph (i : Int) : Char := blocks.getD i.toNat ' '

/-- `Math.min(7, Math.floor(v / 12.5))`: the glyph index of a resolved
bucket average under linear binning of [0,100] into eight bins. -/
def glyphIdx (v : ℚ) : Int := min 7 ⌊v / (25 / 2 : ℚ)⌋

/-- The time bucket an entry falls into:
`Math.min(bars - 1, Math.floor((timestamp - cutoff) / bucketSize))`. -/
def bucketIdx (cutoff : Int) (bucketSize : ℚ) (bars : Nat) (t : Int) : Int :=
  min ((bars : Int) - 1) ⌊((t - cutoff : Int) : ℚ) / bucketSize⌋

/-- Carry-forward fill of the per-bucket averages: an empty bucket
(`none`) takes the previous resolved value, the seed being the neutral
midpoint 50 at the first call site. -/
def fillAverages : List (Option ℚ) → ℚ → List ℚ
  | [], _ => []
  | none :: rest, lastValue => lastValue :: fillAverages rest lastValue
  | some v :: rest, _ => v :: fillAverages rest v

/-- `getSparkline` (lines 698-739): filter the history to the lookback
window, partition it into `bars` equal time buckets, average each
bucket, fill empty buckets by carry-forward (seed 50), and map each
resolved average to a glyph.  An entirely empty window renders the
middle glyph `blocks[4]` in every bucket. -/
def getSparkline (history : List WellbeingSnapshot) (now : Int) (hours : Int)
    (bars : Nat) : List Char :=
  let cutoff := now - hours * 60 * 60 * 1000
  let relevant := history.filter (fun h => decide (h.timestamp > cutoff))
  if relevant.length = 0 then List.replicate bars (glyph 4)
  else
    let bucketSize : ℚ := ((hours * 60 * 60 * 1000 : Int) : ℚ) / (bars : ℚ)
    let buckets : List (List Int) :=
      (List.range bars).map fun (i : Nat) =>
        (relevant.filter
          (fun h => decide (bucketIdx cutoff bucketSize bars h.timestamp = Int.ofNat i))).map
          (·.score)
    let averages : List (Option ℚ) :=
      buckets.map fun b => if b.length = 0 then none else some (meanScore b)
    (fillAverages averages 50).map (fun v => glyph (glyphIdx v))

/-! ## Concrete fixtures used by the theorems below -/

/-- An in-range, ceiling-respecting state with zero energy and hygiene
just inside the top tier. -/
def lowEnergyDirtyState : CrabState :=
  ⟨.neutral, ⟨50, 80, 0, 80, 0, 0, 0⟩, 0⟩

/-- A state with hunger 60 (at most the moderate threshold 70). -/
def hungerSixtyState : CrabState :=
  ⟨.neutral, ⟨60, 50, 50, 100, 0, 0, 0⟩, 0⟩

/-- A state with hunger 75 (above 70, below the stuffed threshold 91). -/
def hungerSeventyFiveState : CrabState :=
  ⟨.neutral, ⟨75, 50, 50, 100, 0, 0, 0⟩, 0⟩

/-- A stuffed state: hunger 95. -/
def hungerNinetyFiveState : CrabState :=
  ⟨.neutral, ⟨95, 50, 50, 100, 2, 7, 9⟩, 0⟩

/-- A state whose stats are all comfortably above the critical
thresholds, so its base emotion is neutral. -/
def calmState : CrabState :=
  ⟨.neutral, ⟨50, 50, 50, 100, 0, 0, 0⟩, 0⟩

/-- A rule with a 2000 ms cooldown whose predicate matches anything. -/
def demoRule2000 : Rule :=
  { source := "demo", test := fun _ => true, cooldown := 2000 }

/-- A recorded offset of 100 bytes for one log file. -/
def truncMap : SizeMap := [("log.jsonl", 100)]

/-- A directory tree holding one 500-byte log file inside a
subdirectory. -/
def demoTree : FsEntry := .dir [.dir [.file "a.jsonl" 500], .file "notes.txt" 30]

/-- A persisted record from ten minutes ago, lacking the hygiene and
poop fields. -/
def oldSavedState : SavedState :=
  ⟨.happy, ⟨80, 70, 60, none, none, 5, 0⟩, 99⟩

/-! ## Claim C1 -/

/-- Claim C1: the spec asserts that after every mutating operation each
attribute stays in [0,100] and happiness stays at or below
`getMaxHappiness(hygiene, energy)`.  The code violates the ceiling part:
`clean()` raises happiness by 5 without re-capping (its comment claims
re-capping is unnecessary because hygiene is now 100, overlooking the
energy penalty of `getMaxHappiness`).  From the in-range, ceiling-
respecting state with happiness 80, energy 0, hygiene 80, one `clean()`
yields happiness 85 while the ceiling is `getMaxHappiness 100 0 = 80`. -/
theorem clean_breaks_happiness_ceiling :
    inRange lowEnergyDirtyState ∧ happinessCapped lowEnergyDirtyState ∧
    (clean lowEnergyDirtyState 1000).stats.happiness = 85 ∧
    getMaxHappiness (clean lowEnergyDirtyState 1000).stats.hygiene
      (clean lowEnergyDirtyState 1000).stats.energy = 80 ∧
    ¬ happinessCapped (clean lowEnergyDirtyState 1000) := by
  decide

/-! ## Claim C2 -/

/-- Claim C2 counterexample: `feed()` tests the overfeeding threshold on
hunger AFTER the random food amount has been added, not before.  With
hunger 60 (not above 70) and food amount 15 (inside randomRange(5,15)),
feed returns "overfed" and increments the poop counter. -/
theorem feed_overfed_without_prior_threshold :
    hungerSixtyState.stats.hunger ≤ 70 ∧
    (feed hungerSixtyState 15 0).1 = FeedResult.overfed ∧
    (feed hungerSixtyState 15 0).2.stats.poopCount
      = hungerSixtyState.stats.poopCount + 1 ∧
    (feed hungerSixtyState 15 0).2.stats.hygiene
      = hungerSixtyState.stats.hygiene - POOP_HYGIENE_PENALTY := by
  decide

/-- Claim C2 (amended): for a non-stuffed feed with food amount in the
random range [5,15], the result is "overfed" — with exactly one hygiene
event (poop counter +1, hygiene lowered by the fixed penalty 15) — if
and only if hunger AFTER the food amount was added exceeds 70; otherwise
the result is "normal" with hygiene and the poop counter unchanged.
Feeding at hunger 75 always yields "overfed". -/
theorem feed_overfed_iff_post_threshold (s : CrabState) (amt now : Int)
    (hns : s.stats.hunger < 91) (h5 : 5 ≤ amt) (h15 : amt ≤ 15) :
    ((feed s amt now).1 = FeedResult.overfed ↔ s.stats.hunger + amt > 70)
  ∧ ((feed s amt now).1 = FeedResult.overfed →
      (feed s amt now).2.stats.poopCount = s.stats.poopCount + 1 ∧
      (feed s amt now).2.stats.hygiene = max 0 (s.stats.hygiene - POOP_HYGIENE_PENALTY))
  ∧ ((feed s amt now).1 = FeedResult.normal →
      (feed s amt now).2.stats.poopCount = s.stats.poopCount ∧
      (feed s amt now).2.stats.hygiene = s.stats.hygiene)
  ∧ ((feed s amt now).1 = FeedResult.normal ∨ (feed s amt now).1 = FeedResult.overfed)
  ∧ (s.stats.hunger = 75 → (feed s amt now).1 = FeedResult.overfed) := by
  have hnot : ¬ s.stats.hunger ≥ 91 := by omega
  have hminiff : (min 100 (s.stats.hunger + amt) > 70) ↔ s.stats.hunger + amt > 70 := by
    omega
  unfold feed
  rw [if_neg hnot]
  by_cases hover : min 100 (s.stats.hunger + amt) > 70
  · rw [if_pos hover]
    refine ⟨by simpa using hminiff.mp hover, ?_, ?_, ?_, ?_⟩
    · intro _
      constructor
      · simp [capHappiness, setEmotion, POOP_HYGIENE_PENALTY]
      · simp [capHappiness, setEmotion, POOP_HYGIENE_PENALTY]
    · intro h
      exact absurd h (by simp)
    · simp
    · intro _
      simp
  · rw [if_neg hover]
    refine ⟨by simp [hminiff.not.mp hover], ?_, ?_, ?_, ?_⟩
    · intro h
      exact absurd h (by simp)
    · intro _
      constructor
      · simp [setEmotion]
      · simp [setEmotion]
    · simp
    · intro h75
      exact absurd hover (by omega)

/-- Concrete instance of the amended C2 theorem: feeding at hunger 75
with the minimum food amount 5 yields "overfed". -/
theorem feed_overfed_iff_post_threshold_witness :
    (feed hungerSeventyFiveState 5 0).1 = FeedResult.overfed :=
  (feed_overfed_iff_post_threshold hungerSeventyFiveState 5 0
    (by decide) (by decide) (by decide)).2.2.2.2 (by decide)

/-! ## Claim C3 -/

/-- Claim C3 counterexample: an emotion set via `setEmotion` with
duration 0 is NOT sticky.  The expiry becomes `now + 0 = now`, which is
nonzero for any positive call time, so the very next expiry check at a
strictly later time reverts the emotion to the base emotion. -/
theorem setEmotion_zero_duration_expires :
    (setEmotion calmState .happy 0 1000).emotion = Emotion.happy ∧
    (setEmotion calmState .happy 0 1000).emotionExpiry = 1000 ∧
    (checkEmotionExpiry (setEmotion calmState .happy 0 1000) 1001).emotion
      = Emotion.neutral := by
  decide

/-- Claim C3 (amended): `setEmotion` with duration 0 records expiry
equal to the call time, so whenever the call time is positive the
overlay auto-expires: any expiry check strictly after the call time
reverts the emotion to the attribute-derived base emotion and zeroes the
expiry.  Only an expiry field that is exactly 0 is sticky: the expiry
check never alters such a state. -/
theorem setEmotion_zero_duration_expiry_behavior (s : CrabState) (e : Emotion)
    (now t : Int) (hnow : 0 < now) (ht : now < t) :
    (setEmotion s e 0 now).emotionExpiry = now
  ∧ (checkEmotionExpiry (setEmotion s e 0 now) t).emotion = getBaseEmotion s
  ∧ (checkEmotionExpiry (setEmotion s e 0 now) t).emotionExpiry = 0
  ∧ (∀ s0 : CrabState, s0.emotionExpiry = 0 → ∀ u : Int, checkEmotionExpiry s0 u = s0) := by
  refine ⟨by simp [setEmotion], ?_, ?_, ?_⟩
  · simp only [checkEmotionExpiry, setEmotion]
    rw [if_pos (by constructor <;> simp <;> omega)]
    simp [getBaseEmotion]
  · simp only [checkEmotionExpiry, setEmotion]
    rw [if_pos (by constructor <;> simp <;> omega)]
  · intro s0 h0 u
    simp [checkEmotionExpiry, h0]

/-- Concrete instance of the amended C3 theorem: a happy overlay set
with duration 0 at time 1000 has expired by time 1001. -/
theorem setEmotion_zero_duration_expiry_behavior_witness :
    (checkEmotionExpiry (setEmotion calmState .excited 0 1000) 1001).emotion
      = getBaseEmotion calmState :=
  (setEmotion_zero_duration_expiry_behavior calmState .excited 1000 1001
    (by decide) (by decide)).2.1

/-! ## Claim C8 -/

/-- Claim C8: `feed()` at hunger at or above the stuffed threshold 91
returns "stuffed" and leaves the entire state (attributes, poop counter,
lastFed, emotion overlay) exactly unchanged. -/
theorem feed_stuffed_unchanged (s : CrabState) (amt now : Int)
    (h : 91 ≤ s.stats.hunger) :
    feed s amt now = (FeedResult.stuffed, s) := by
  unfold feed
  rw [if_pos (by omega)]

/-- Concrete instance of C8: feeding at hunger 95 is refused and changes
nothing. -/
theorem feed_stuffed_unchanged_witness :
    feed hungerNinetyFiveState 10 123 = (FeedResult.stuffed, hungerNinetyFiveState) :=
  feed_stuffed_unchanged hungerNinetyFiveState 10 123 (by decide)

/-! ## Claim C10 -/

/-- Claim C10: loading a persisted record restores emotion neutral with
expiry 0; hunger is the persisted hunger minus 2 per whole elapsed
offline minute (floored at 0); energy is the persisted energy plus one
point per 5 whole offline minutes (capped at 100); happiness, hygiene
and the poop counter come straight from the record, hygiene defaulting
to 100 and the poop counter to 0 when absent.  `Int.fdiv` is
`Math.floor` of the division. -/
theorem loadState_restores (saved : SavedState) (now : Int) :
    (loadState (some saved) now).emotion = Emotion.neutral
  ∧ (loadState (some saved) now).emotionExpiry = 0
  ∧ (loadState (some saved) now).stats.hunger
      = max 0 (saved.stats.hunger - 2 * ((now - saved.stats.lastInteraction).fdiv 60000))
  ∧ (loadState (some saved) now).stats.energy
      = min 100 (saved.stats.energy + ((now - saved.stats.lastInteraction).fdiv 60000).fdiv 5)
  ∧ (loadState (some saved) now).stats.happiness = saved.stats.happiness
  ∧ (loadState (some saved) now).stats.hygiene = saved.stats.hygiene.getD 100
  ∧ (loadState (some saved) now).stats.poopCount = saved.stats.poopCount.getD 0
  ∧ (loadState (some saved) now).stats.lastFed = saved.stats.lastFed
  ∧ (loadState (some saved) now).stats.lastInteraction = now := by
  refine ⟨rfl, rfl, ?_, rfl, rfl, rfl, rfl, rfl, rfl⟩
  simp [loadState, HUNGER_DECAY_RATE, mul_comm]

/-! ## Claim C7 -/

/-- Claim C7 counterexample: the error rule's counter is NOT reset when
it reaches the escalation point.  With errorCount 2, one more error
match emits the escalated event (`onRepeatedErrors`) yet leaves the
counter at 3, not 0 — the counter only resets when it reaches 5 (where a
stress poop is added too). -/
theorem errorCounter_not_reset_at_escalation :
    errorHandler ⟨0, 2⟩ = (ClassifierEvent.repeatedErrors, ⟨0, 3⟩) ∧
    (errorHandler ⟨0, 2⟩).1 ≠ ClassifierEvent.error ∧
    (errorHandler ⟨0, 2⟩).2.errorCount ≠ 0 := by
  decide

/-- Claim C7 (amended): the success counter behaves as claimed —
increment per mild match, escalate and reset at 3 — and every handler
zeroes the opposing counter.  The error counter escalates from 3
onwards but resets only at 5, where the escalated event also carries a
stress poop; at 3 and 4 the incremented counter is kept. -/
theorem escalation_counter_behavior (c : EscalationCounters) :
    (c.successCount + 1 ≥ 3 →
      successHandler c = (ClassifierEvent.multipleSuccesses, ⟨0, 0⟩))
  ∧ (c.successCount + 1 < 3 →
      successHandler c = (ClassifierEvent.success, ⟨c.successCount + 1, 0⟩))
  ∧ (c.errorCount + 1 ≥ 5 →
      errorHandler c = (ClassifierEvent.repeatedErrorsPoop, ⟨0, 0⟩))
  ∧ (3 ≤ c.errorCount + 1 → c.errorCount + 1 < 5 →
      errorHandler c = (ClassifierEvent.repeatedErrors, ⟨0, c.errorCount + 1⟩))
  ∧ (c.errorCount + 1 < 3 →
      errorHandler c = (ClassifierEvent.error, ⟨0, c.errorCount + 1⟩))
  ∧ (successHandler c).2.errorCount = 0
  ∧ (errorHandler c).2.successCount = 0 := by
  unfold successHandler errorHandler
  refine ⟨?_, ?_, ?_, ?_, ?_, ?_, ?_⟩
  · intro h; rw [if_pos h]
  · intro h; rw [if_neg (by omega)]
  · intro h; rw [if_pos h]
  · intro h3 h5; rw [if_neg (by omega), if_pos h3]
  · intro h; rw [if_neg (by omega), if_neg (by omega)]
  · show (if c.successCount + 1 ≥ 3 then _ else _ : ClassifierEvent × EscalationCounters).2.errorCount = 0
    split <;> rfl
  · show (if c.errorCount + 1 ≥ 5 then _ else _ : ClassifierEvent × EscalationCounters).2.successCount = 0
    split
    · rfl
    · show (if c.errorCount + 1 ≥ 3 then _ else _ : ClassifierEvent × EscalationCounters).2.successCount = 0
      split <;> rfl

/-- Concrete instance of the amended C7 theorem: the success counter at
2 escalates and resets on the next success match. -/
theorem escalation_counter_behavior_witness :
    successHandler ⟨2, 0⟩ = (ClassifierEvent.multipleSuccesses, ⟨0, 0⟩) :=
  (escalation_counter_behavior ⟨2, 0⟩).1 (by decide)

/-! ## Claim C4 -/

/-- Claim C4 counterexample: on observing a size (40) strictly below the
recorded offset (100), the reader does produce no chunk, but it does NOT
reset the recorded offset to the current size — the map is left exactly
as it was, still recording 100. -/
theorem truncation_leaves_offset_unchanged :
    (checkFileForChanges truncMap "log.jsonl" 40).1 = none ∧
    (checkFileForChanges truncMap "log.jsonl" 40).2 = truncMap ∧
    lookupSize (checkFileForChanges truncMap "log.jsonl" 40).2 "log.jsonl"
      = some 100 := by
  decide

/-- Claim C4 (amended): when a poll observes a file size strictly below
the recorded offset (truncation/rotation), the reader produces no chunk
and leaves the recorded offset unchanged (there is no reset branch: the
entire offset map is untouched). -/
theorem truncation_produces_no_chunk (m : SizeMap) (p : String) (size : Nat)
    (h : size < (lookupSize m p).getD 0) :
    checkFileForChanges m p size = (none, m) := by
  unfold checkFileForChanges
  rw [if_neg (by omega)]

/-- Concrete instance of the amended C4 theorem: a file shrunk to 60
bytes below its recorded 100-byte offset yields no chunk and no map
change. -/
theorem truncation_produces_no_chunk_witness :
    checkFileForChanges truncMap "log.jsonl" 60 = (none, truncMap) :=
  truncation_produces_no_chunk truncMap "log.jsonl" 60 (by decide)

/-! ## Claim C6 -/

/-- The fired rule index is the first (in table order) whose cooldown
has elapsed and whose predicate matches; rules are checked against the
trigger map as it was at the start of the scan. -/
theorem classify_fst_eq_findIdx (rules : List Rule) (m : TriggerMap)
    (content : String) (now : Int) :
    (classify rules m content now).1
      = rules.findIdx? (fun r => ruleFires r m content now) := by
  induction rules with
  | nil => rfl
  | cons r rest ih =>
    unfold classify
    rw [List.findIdx?_cons]
    by_cases hfire : ruleFires r m content now
    · rw [if_pos hfire, if_pos hfire]
    · rw [if_neg hfire, if_neg hfire, List.findIdx?_succ]
      simp [ih]

/-- The trigger map after a scan: only the fired rule's key is stamped
with `now`; if no rule fired the map is untouched. -/
theorem classify_snd_eq_find (rules : List Rule) (m : TriggerMap)
    (content : String) (now : Int) :
    (classify rules m content now).2
      = (match rules.find? (fun r => ruleFires r m content now) with
          | some r => setTrigger m r.source now
          | none => m) := by
  induction rules with
  | nil => rfl
  | cons r rest ih =>
    unfold classify
    rw [List.find?_cons]
    by_cases hfire : ruleFires r m content now
    · rw [if_pos hfire, hfire]
    · rw [if_neg hfire, Bool.eq_false_iff.mpr hfire]
      simpa using ih

/-- Claim C6: `classify` evaluates the rule table in its fixed order
and fires at most one rule — the first whose predicate matches the
chunk AND whose per-rule cooldown (keyed by the rule's pattern source
in the shared trigger map) has elapsed; all later rules are skipped and
only the fired rule's timestamp is updated.  For a rule with cooldown
2000 ms that fired at t = 0, a matching chunk at t = 500 fires nothing,
and a matching chunk at t = 2100 fires it again. -/
theorem classify_first_match_wins (rules : List Rule) (m : TriggerMap)
    (content : String) (now : Int) :
    ((classify rules m content now).1
        = rules.findIdx? (fun r => ruleFires r m content now))
  ∧ ((classify rules m content now).2
        = (match rules.find? (fun r => ruleFires r m content now) with
            | some r => setTrigger m r.source now
            | none => m))
  ∧ (classify [demoRule2000] [("demo", 0)] "hit" 500).1 = none
  ∧ (classify [demoRule2000] [("demo", 0)] "hit" 2100).1 = some 0
  ∧ (classify [demoRule2000] [("demo", 0)] "hit" 2100).2 = [("demo", 2100)] := by
  refine ⟨classify_fst_eq_findIdx rules m content now,
          classify_snd_eq_find rules m content now, ?_, ?_, ?_⟩ <;> decide

/-! ## Claim C5 -/

theorem jsonlFiles_file (p : String) (s : Nat) :
    jsonlFiles (.file p s) = if endsWithJsonl p then [(p, s)] else [] := rfl

theorem jsonlFiles_dir (es : List FsEntry) :
    jsonlFiles (.dir es) = jsonlFilesList es := rfl

theorem jsonlFilesList_nil : jsonlFilesList [] = [] := rfl

theorem jsonlFilesList_cons (e : FsEntry) (es : List FsEntry) :
    jsonlFilesList (e :: es) = jsonlFiles e ++ jsonlFilesList es := rfl

theorem initFileSizes_file (p : String) (s : Nat) (m : SizeMap) :
    initFileSizes (.file p s) m = if endsWithJsonl p then storeSize m p s else m := rfl

theorem initFileSizes_dir (es : List FsEntry) (m : SizeMap) :
    initFileSizes (.dir es) m = initFileSizesList es m := rfl

theorem initFileSizesList_cons (e : FsEntry) (es : List FsEntry) (m : SizeMap) :
    initFileSizesList (e :: es) m = initFileSizesList es (initFileSizes e m) := rfl

theorem scanDir_file (p : String) (s : Nat) (m : SizeMap) :
    scanDir (.file p s) m =
      if endsWithJsonl p then
        match checkFileForChanges m p s with
        | (some c, m1) => ([c], m1)
        | (none, m1) => ([], m1)
      else ([], m) := rfl

theorem scanDir_dir (es : List FsEntry) (m : SizeMap) :
    scanDir (.dir es) m = scanDirList es m := rfl

theorem scanDirList_cons (e : FsEntry) (es : List FsEntry) (m : SizeMap) :
    scanDirList (e :: es) m =
      (let r := scanDir e m
       let r1 := scanDirList es r.2
       (r.1 ++ r1.1, r1.2)) := rfl

theorem lookupSize_storeSize_self (m : SizeMap) (p : String) (s : Nat) :
    lookupSize (storeSize m p s) p = some s := by
  induction m with
  | nil => simp [storeSize, lookupSize]
  | cons kv rest ih =>
    obtain ⟨k, v⟩ := kv
    by_cases hk : k = p
    · simp [storeSize, hk, lookupSize]
    · simp [storeSize, hk, lookupSize, ih]

theorem lookupSize_storeSize_ne (m : SizeMap) (p q : String) (s : Nat)
    (hq : q ≠ p) : lookupSize (storeSize m p s) q = lookupSize m q := by
  have hpq : p ≠ q := fun h => hq h.symm
  induction m with
  | nil => simp [storeSize, lookupSize, hpq]
  | cons kv rest ih =>
    obtain ⟨k, v⟩ := kv
    by_cases hk : k = p
    · subst hk
      simp [storeSize, lookupSize, hpq]
    · simp only [storeSize, if_neg hk]
      by_cases hkq : k = q
      · simp [lookupSize, hkq]
      · simp [lookupSize, hkq, ih]

mutual
/-- A poll in which every `.jsonl` file's recorded size already equals
its current size produces no chunks and leaves the map unchanged. -/
theorem scanDir_no_change (t : FsEntry) (m : SizeMap)
    (h : ∀ p s, (p, s) ∈ jsonlFiles t → lookupSize m p = some s) :
    scanDir t m = ([], m) := by
  cases t with
  | file p s =>
    rw [scanDir_file]
    by_cases hj : endsWithJsonl p
    · rw [if_pos hj]
      have hl : lookupSize m p = some s := h p s (by simp [jsonlFiles_file, hj])
      have hc : checkFileForChanges m p s = (none, m) := by
        unfold checkFileForChanges
        rw [hl]
        simp
      rw [hc]
    · rw [if_neg hj]
  | dir es =>
    rw [scanDir_dir]
    exact scanDirList_no_change es m fun p s hmem =>
      h p s (by rw [jsonlFiles_dir]; exact hmem)

theorem scanDirList_no_change (ts : List FsEntry) (m : SizeMap)
    (h : ∀ p s, (p, s) ∈ jsonlFilesList ts → lookupSize m p = some s) :
    scanDirList ts m = ([], m) := by
  cases ts with
  | nil => rfl
  | cons t ts =>
    rw [scanDirList_cons]
    have h1 : scanDir t m = ([], m) := scanDir_no_change t m fun p s hmem =>
      h p s (by rw [jsonlFilesList_cons]; exact List.mem_append_left _ hmem)
    have h2 : scanDirList ts m = ([], m) := scanDirList_no_change ts m fun p s hmem =>
      h p s (by rw [jsonlFilesList_cons]; exact List.mem_append_right _ hmem)
    simp [h1, h2]
end

mutual
/-- Initialization does not disturb keys outside the tree's `.jsonl`
paths. -/
theorem lookupSize_initFileSizes_notMem (t : FsEntry) (m : SizeMap) (q : String)
    (hq : q ∉ (jsonlFiles t).map Prod.fst) :
    lookupSize (initFileSizes t m) q = lookupSize m q := by
  cases t with
  | file p s =>
    rw [initFileSizes_file]
    by_cases hj : endsWithJsonl p
    · rw [if_pos hj]
      have hqp : q ≠ p := by
        rw [jsonlFiles_file, if_pos hj] at hq
        simpa using hq
      exact lookupSize_storeSize_ne m p q s hqp
    · rw [if_neg hj]
  | dir es =>
    rw [initFileSizes_dir]
    exact lookupSize_initFileSizesList_notMem es m q (by rwa [jsonlFiles_dir] at hq)

theorem lookupSize_initFileSizesList_notMem (ts : List FsEntry) (m : SizeMap) (q : String)
    (hq : q ∉ (jsonlFilesList ts).map Prod.fst) :
    lookupSize (initFileSizesList ts m) q = lookupSize m q := by
  cases ts with
  | nil => rfl
  | cons t ts =>
    rw [jsonlFilesList_cons, List.map_append] at hq
    rw [initFileSizesList_cons,
        lookupSize_initFileSizesList_notMem ts (initFileSizes t m) q
          (fun hmem => hq (List.mem_append_right _ hmem)),
        lookupSize_initFileSizes_notMem t m q
          (fun hmem => hq (List.mem_append_left _ hmem))]
end

mutual
/-- With pairwise-distinct `.jsonl` paths, initialization records every
file's current size. -/
theorem lookupSize_initFileSizes_mem (t : FsEntry) (m : SizeMap) (p : String) (s : Nat)
    (hnd : ((jsonlFiles t).map Prod.fst).Nodup) (hmem : (p, s) ∈ jsonlFiles t) :
    lookupSize (initFileSizes t m) p = some s := by
  cases t with
  | file p0 s0 =>
    rw [initFileSizes_file]
    by_cases hj : endsWithJsonl p0
    · rw [if_pos hj]
      rw [jsonlFiles_file, if_pos hj] at hmem
      obtain ⟨hp, hs⟩ := by simpa using hmem
      rw [hp, hs]
      exact lookupSize_storeSize_self m p0 s0
    · rw [jsonlFiles_file, if_neg hj] at hmem
      exact absurd hmem (by simp)
  | dir es =>
    rw [initFileSizes_dir]
    exact lookupSize_initFileSizesList_mem es m p s
      (by rwa [jsonlFiles_dir] at hnd) (by rwa [jsonlFiles_dir] at hmem)

theorem lookupSize_initFileSizesList_mem (ts : List FsEntry) (m : SizeMap) (p : String) (s : Nat)
    (hnd : ((jsonlFilesList ts).map Prod.fst).Nodup) (hmem : (p, s) ∈ jsonlFilesList ts) :
    lookupSize (initFileSizesList ts m) p = some s := by
  cases ts with
  | nil => exact absurd hmem (by simp [jsonlFilesList_nil])
  | cons t ts =>
    rw [initFileSizesList_cons]
    rw [jsonlFilesList_cons] at hmem
    rw [jsonlFilesList_cons, List.map_append, List.nodup_append] at hnd
    rcases List.mem_append.mp hmem with hin | hin
    · have hnotin : p ∉ (jsonlFilesList ts).map Prod.fst :=
        fun hcontra => hnd.2.2 (List.mem_map_of_mem Prod.fst hin) hcontra
      rw [lookupSize_initFileSizesList_notMem ts (initFileSizes t m) p hnotin]
      exact lookupSize_initFileSizes_mem t m p s hnd.1 hin
    · exact lookupSize_initFileSizesList_mem ts (initFileSizes t m) p s hnd.2.1 hin
end

/-- Claim C5 (amended): a file already present at construction has its
offset initialized to its then-current size, so the first poll with no
appended bytes yields zero chunks (for a tree with pairwise-distinct
`.jsonl` paths).  A file first observed only during a later poll,
however, defaults to offset 0 and its entire pre-existing content is
emitted as one chunk — pre-existing content IS replayed in that case. -/
theorem first_observation_offsets (t : FsEntry)
    (hnd : ((jsonlFiles t).map Prod.fst).Nodup) :
    scanDir t (initFileSizes t []) = ([], initFileSizes t [])
  ∧ (∀ (m : SizeMap) (p : String) (s : Nat), lookupSize m p = none → 0 < s →
      checkFileForChanges m p s = (some ⟨p, 0, s⟩, storeSize m p s)) := by
  constructor
  · apply scanDir_no_change
    intro p s hmem
    exact lookupSize_initFileSizes_mem t [] p s hnd hmem
  · intro m p s hnone hpos
    unfold checkFileForChanges
    rw [hnone]
    simp [hpos]

/-- Concrete instance of the amended C5 theorem: a 500-byte log file in
a subdirectory at construction yields zero chunks on the first poll. -/
theorem first_observation_offsets_witness :
    scanDir demoTree (initFileSizes demoTree []) = ([], initFileSizes demoTree []) :=
  (first_observation_offsets demoTree (by decide)).1

/-- Claim C5 counterexample: a 500-byte file first appearing during a
later poll (no recorded offset) is read in full — the produced chunk is
the byte range [0, 500), i.e. all the content that existed before first
observation. -/
theorem new_file_replays_existing_content :
    lookupSize [] "new.jsonl" = none ∧
    (checkFileForChanges [] "new.jsonl" 500).1 = some ⟨"new.jsonl", 0, 500⟩ := by
  decide

/-! ## Claim C9 -/

theorem glyphIdx_fifty : glyphIdx 50 = 4 := by
  have h : ((50 : ℚ) / (25 / 2)) = 4 := by norm_num
  rw [glyphIdx, h]
  norm_num

theorem glyphIdx_fortyFive : glyphIdx 45 = 3 := by
  have h : ((45 : ℚ) / (25 / 2)) = 18 / 5 := by norm_num
  rw [glyphIdx, h]
  norm_num

/-- The code's glyph band containing 50 is exactly [50, 62.5), under
`min 7 ⌊v / 12.5⌋`. -/
theorem glyphIdx_eq_four_iff (v : ℚ) : glyphIdx v = 4 ↔ 50 ≤ v ∧ v < 125 / 2 := by
  have hc : (0 : ℚ) < 25 / 2 := by norm_num
  unfold glyphIdx
  constructor
  · intro h
    have hf : ⌊v / (25 / 2 : ℚ)⌋ = 4 := by
      rcases le_or_lt 7 ⌊v / (25 / 2 : ℚ)⌋ with hle | hlt
      · rw [min_eq_left hle] at h; omega
      · rwa [min_eq_right (by omega)] at h
    have hiff := Int.floor_eq_iff.mp hf
    constructor
    · have h1 := hiff.1
      rw [le_div_iff₀ hc] at h1
      push_cast at h1
      linarith
    · have h2 := hiff.2
      rw [div_lt_iff₀ hc] at h2
      push_cast at h2
      linarith
  · rintro ⟨h1, h2⟩
    have hf : ⌊v / (25 / 2 : ℚ)⌋ = 4 := by
      rw [Int.floor_eq_iff]
      constructor
      · rw [le_div_iff₀ hc]; push_cast; linarith
      · rw [div_lt_iff₀ hc]; push_cast; linarith
    rw [hf]
    norm_num

/-- Claim C9 counterexample: [40,60) is not a glyph band of the code's
linear binning.  45 and 50 both lie in [40,60) yet map to different
glyphs (indices 3 and 4): the band containing 50 starts at 50, not
40. -/
theorem band_of_fifty_not_forty_sixty :
    glyphIdx 45 = 3 ∧ glyphIdx 50 = 4 ∧
    ((40 : ℚ) ≤ 45 ∧ (45 : ℚ) < 60) ∧ ((40 : ℚ) ≤ 50 ∧ (50 : ℚ) < 60) ∧
    glyph (glyphIdx 45) ≠ glyph (glyphIdx 50) := by
  refine ⟨glyphIdx_fortyFive, glyphIdx_fifty, by norm_num, by norm_num, ?_⟩
  rw [glyphIdx_fortyFive, glyphIdx_fifty]
  decide

theorem fillAverages_const (l : List (Option ℚ)) (c : ℚ)
    (h : ∀ x ∈ l, x = none ∨ x = some c) :
    fillAverages l c = List.replicate l.length c := by
  induction l with
  | nil => rfl
  | cons x rest ih =>
    have hrest := ih fun y hy => h y (by simp [hy])
    rcases h x (by simp) with hx | hx <;> subst hx <;>
      simp [fillAverages, List.replicate, hrest]

/-- A constant-50 list of bucket averages renders as copies of the
glyph of 50, `blocks[4]`. -/
theorem map_glyph_fill (l : List (Option ℚ)) (n : Nat) (hlen : l.length = n)
    (h : ∀ x ∈ l, x = none ∨ x = some 50) :
    (fillAverages l 50).map (fun v => glyph (glyphIdx v)) = List.replicate n (glyph 4) := by
  rw [fillAverages_const l 50 h, hlen, List.map_replicate, glyphIdx_fifty]

/-- Claim C9 (amended): with exactly one wellbeing snapshot, of score
50, inside the lookback window, `getSparkline` renders every one of the
eight buckets with the same glyph `blocks[4]` — empty buckets take the
previous bucket's resolved value and an empty first bucket is seeded
with the neutral midpoint 50 — and `getWellbeingTrend` returns stable.
The glyph band containing 50 under the code's linear binning of [0,100]
into eight bins is [50, 62.5), not [40, 60). -/
theorem single_snapshot_sparkline (ts now hours : Int) (hh : 0 < hours)
    (hin : now - hours * 60 * 60 * 1000 < ts) :
    getSparkline [⟨ts, 50⟩] now hours 8 = List.replicate 8 (glyph 4)
  ∧ getWellbeingTrend [⟨ts, 50⟩] now = Trend.stable
  ∧ (∀ v : ℚ, glyphIdx v = 4 ↔ 50 ≤ v ∧ v < 125 / 2) := by
  refine ⟨?_, ?_, glyphIdx_eq_four_iff⟩
  · have hfilter :
        List.filter (fun h => decide (h.timestamp > now - hours * 60 * 60 * 1000))
          [(⟨ts, 50⟩ : WellbeingSnapshot)] = [⟨ts, 50⟩] := by
      simp [List.filter, hin]
    simp only [getSparkline, hfilter, List.length_cons, List.length_nil]
    rw [if_neg (by simp)]
    apply map_glyph_fill
    · simp
    · intro x hx
      simp only [List.mem_map, List.mem_range] at hx
      obtain ⟨b, ⟨i, hi, rfl⟩, rfl⟩ := hx
      by_cases hb : bucketIdx (now - hours * 60 * 60 * 1000)
          (((hours * 60 * 60 * 1000 : Int) : ℚ) / ((8 : Nat) : ℚ)) 8 ts = Int.ofNat i
      · right
        have hfilter1 : List.filter
            (fun h => decide (bucketIdx (now - hours * 60 * 60 * 1000)
              (((hours * 60 * 60 * 1000 : Int) : ℚ) / ((8 : Nat) : ℚ)) 8 h.timestamp
                = Int.ofNat i)) [(⟨ts, 50⟩ : WellbeingSnapshot)] = [⟨ts, 50⟩] := by
          simp at hb
          simp [List.filter, hb]
        rw [hfilter1]
        norm_num [meanScore]
      · left
        have hfilter0 : List.filter
            (fun h => decide (bucketIdx (now - hours * 60 * 60 * 1000)
              (((hours * 60 * 60 * 1000 : Int) : ℚ) / ((8 : Nat) : ℚ)) 8 h.timestamp
                = Int.ofNat i)) [(⟨ts, 50⟩ : WellbeingSnapshot)] = [] := by
          simp at hb
          simp [List.filter, hb]
        rw [hfilter0]
        simp
  · simp [getWellbeingTrend]

/-- Concrete instance of the amended C9 theorem: one snapshot of score
50 taken at time 500, viewed at time 1000 over a 1-hour window, renders
eight copies of `blocks[4]` and a stable trend. -/
theorem single_snapshot_sparkline_witness :
    getSparkline [⟨500, 50⟩] 1000 1 8 = List.replicate 8 (glyph 4) ∧
    getWellbeingTrend [⟨500, 50⟩] 1000 = Trend.stable :=
  ⟨(single_snapshot_sparkline 500 1000 1 (by decide) (by decide)).1,
   (single_snapshot_sparkline 500 1000 1 (by decide) (by decide)).2.1⟩

end Crabgotchi
